import Mathlib

/-!
Verification of the smartchair-camera-desktop core components.

Shallow embedding of the two core modules:
* `utils/work_timer.py` — the `WorkTimer` session tracker;
* `utils/ws_client.py` — the `WSClient` telemetry client.

Wall-clock times and durations (Python floats) are modelled as rationals;
the socket handle is modelled as `Option Unit` (present / absent); the
outcome of a network connect attempt is supplied as a boolean oracle.
Thread liveness of the background worker is modelled by a boolean flag,
with an explicit `workerObserveStop` step standing for the worker loop
noticing the stop event and exiting.
-/

namespace SmartChair

/-! ## WorkTimer (src/utils/work_timer.py) -/

/-- State of `WorkTimer`: threshold, the two cumulative counters,
the last-update timestamp and the state label (`IDLE` / `WORK` / `BREAK`). -/
structure WorkTimer where
  attention_threshold : ℚ
  total_work_seconds : ℚ
  total_break_seconds : ℚ
  last_update_time : ℚ
  state : String
deriving Repr, DecidableEq

/-- `WorkTimer.__init__`: counters at 0, state `IDLE`, last update = now. -/
def WorkTimer.init (threshold : ℚ) (now : ℚ) : WorkTimer :=
  { attention_threshold := threshold
    total_work_seconds := 0
    total_break_seconds := 0
    last_update_time := now
    state := "IDLE" }

/-- `WorkTimer.update(is_present, attention_level)` with the wall clock
passed explicitly as `now`.  Mirrors the three branches of the source:
absent → BREAK; present but `attention_level < attention_threshold` →
BREAK; otherwise WORK. -/
def WorkTimer.update (t : WorkTimer) (now : ℚ) (is_present : Bool)
    (attention_level : ℚ) : WorkTimer :=
  let delta := now - t.last_update_time
  let t1 := { t with last_update_time := now }
  if ¬ is_present then
    { t1 with state := "BREAK"
              total_break_seconds := t1.total_break_seconds + delta }
  else if attention_level < t1.attention_threshold then
    { t1 with state := "BREAK"
              total_break_seconds := t1.total_break_seconds + delta }
  else
    { t1 with state := "WORK"
              total_work_seconds := t1.total_work_seconds + delta }

/-- Run a sequence of `update` calls; each element is `(now, is_present,
attention_level)`. -/
def WorkTimer.runUpdates (t : WorkTimer) : List (ℚ × Bool × ℚ) → WorkTimer
  | [] => t
  | (now, p, a) :: rest => (t.update now p a).runUpdates rest

/-- Sum of the elapsed deltas `now - lastUpdateTimestamp` observed by a
sequence of `update` calls, starting from timestamp `last`. -/
def deltaSum : ℚ → List (ℚ × Bool × ℚ) → ℚ
  | _, [] => 0
  | last, (now, _, _) :: rest => (now - last) + deltaSum now rest

lemma WorkTimer.update_conserves (t : WorkTimer) (now : ℚ) (p : Bool) (a : ℚ) :
    (t.update now p a).total_work_seconds + (t.update now p a).total_break_seconds
      = t.total_work_seconds + t.total_break_seconds + (now - t.last_update_time) := by
  unfold WorkTimer.update
  by_cases hp : p
  · by_cases ha : a < t.attention_threshold <;> simp [hp, ha] <;> ring
  · simp [hp]; ring

lemma WorkTimer.update_last (t : WorkTimer) (now : ℚ) (p : Bool) (a : ℚ) :
    (t.update now p a).last_update_time = now := by
  unfold WorkTimer.update
  by_cases hp : p
  · by_cases ha : a < t.attention_threshold <;> simp [hp, ha]
  · simp [hp]

lemma WorkTimer.update_one_counter (t : WorkTimer) (now : ℚ) (p : Bool) (a : ℚ) :
    (t.update now p a).total_work_seconds = t.total_work_seconds
      ∨ (t.update now p a).total_break_seconds = t.total_break_seconds := by
  unfold WorkTimer.update
  by_cases hp : p
  · by_cases ha : a < t.attention_threshold <;> simp [hp, ha]
  · simp [hp]

/-- Claim C1: for every call sequence, work + break equals the sum of the observed
elapsed deltas; each single call adds its whole delta to exactly one of the
two counters (the other is untouched). -/
theorem workTimer_conservation :
    (∀ (t : WorkTimer) (calls : List (ℚ × Bool × ℚ)),
      (t.runUpdates calls).total_work_seconds + (t.runUpdates calls).total_break_seconds
        = t.total_work_seconds + t.total_break_seconds
          + deltaSum t.last_update_time calls)
    ∧ (∀ (t : WorkTimer) (now : ℚ) (p : Bool) (a : ℚ),
        (t.update now p a).total_work_seconds = t.total_work_seconds
          ∨ (t.update now p a).total_break_seconds = t.total_break_seconds) := by
  constructor
  · intro t calls
    induction calls generalizing t with
    | nil => simp [WorkTimer.runUpdates, deltaSum]
    | cons c rest ih =>
      obtain ⟨now, p, a⟩ := c
      rw [WorkTimer.runUpdates, deltaSum, ih]
      rw [WorkTimer.update_conserves, WorkTimer.update_last]
      ring
  · exact WorkTimer.update_one_counter

/-- Claim C2: the threshold comparison is inclusive — when present and
`attention_level` equals the threshold, the call sets state `WORK`, adds the
whole delta to the work counter, and leaves the break counter unchanged. -/
theorem workTimer_threshold_inclusive (t : WorkTimer) (now : ℚ) :
    (t.update now true t.attention_threshold).state = "WORK"
    ∧ (t.update now true t.attention_threshold).total_work_seconds
        = t.total_work_seconds + (now - t.last_update_time)
    ∧ (t.update now true t.attention_threshold).total_break_seconds
        = t.total_break_seconds := by
  unfold WorkTimer.update
  simp

/-- Claim C9: every `update` call, whatever its arguments, leaves the state label
in the set of WORK and BREAK; hence after the first call the state is never
`IDLE` again. -/
theorem workTimer_never_idle_again (t : WorkTimer) (now : ℚ) (p : Bool) (a : ℚ)
    (calls : List (ℚ × Bool × ℚ)) :
    (t.runUpdates ((now, p, a) :: calls)).state = "WORK"
      ∨ (t.runUpdates ((now, p, a) :: calls)).state = "BREAK" := by
  induction calls generalizing t now p a with
  | nil =>
    rw [WorkTimer.runUpdates, WorkTimer.runUpdates]
    unfold WorkTimer.update
    by_cases hp : p
    · by_cases ha : a < t.attention_threshold <;> simp [hp, ha]
    · simp [hp]
  | cons c rest ih =>
    obtain ⟨now2, p2, a2⟩ := c
    rw [WorkTimer.runUpdates]
    exact ih _ _ _ _

/-! ## WSClient (src/utils/ws_client.py) -/

/-- Bound of the outbound queue: `queue.Queue(maxsize=10)`. -/
def queueMaxsize : Nat := 10

/-- Backoff seed: `self._base_reconnect_delay = 1.0`. -/
def baseReconnectDelay : ℚ := 1

/-- Backoff cap: `self._max_reconnect_delay = 10.0`. -/
def maxReconnectDelay : ℚ := 10

/-- State of `WSClient`.  The outbound queue holds the strings produced by
`json.dumps`, plus the `None` sentinel that `close` enqueues, hence
`List (Option String)` (front of the list = front of the FIFO).  The live
thread objects are modelled by liveness flags; `ws` is `some ()` when a
socket handle is held. -/
structure WSClient where
  primary_url : String
  backup_url : String
  active_url : String
  camera_enabled : Bool
  ws : Option Unit
  connected : Bool
  queue : List (Option String)
  worker_alive : Bool
  receiver_alive : Bool
  stop_event : Bool
  last_ping_time : ℚ
deriving Repr, DecidableEq

/-- `WSClient.__init__` (thread start modelled by `worker_alive := true`,
matching the `_start_worker()` call at the end of the constructor). -/
def WSClient.init (primary backup : String) : WSClient :=
  { primary_url := primary
    backup_url := backup
    active_url := primary
    camera_enabled := true
    ws := none
    connected := false
    queue := []
    worker_alive := true
    receiver_alive := false
    stop_event := false
    last_ping_time := 0 }

/-- `WSClient._start_worker`: if the worker thread is alive, return;
otherwise clear the stop event and start a fresh worker thread. -/
def WSClient.startWorker (c : WSClient) : WSClient :=
  if c.worker_alive then c
  else { c with stop_event := false, worker_alive := true }

/-- The worker loop noticing a set stop event at the top of its `while` and
exiting (`while not self._stop_event.is_set()`).  This is the explicit
thread-exit step of the sequential model. -/
def WSClient.workerObserveStop (c : WSClient) : WSClient :=
  if c.stop_event then { c with worker_alive := false } else c

/-- `WSClient._safe_close`: close the socket if one is held (any exception
from `ws.close()` is swallowed) and drop the handle. -/
def WSClient.safeClose (c : WSClient) : WSClient :=
  match c.ws with
  | some _ => { c with ws := none }
  | none => c

/-- Result of `send_json`: the updated client plus which log lines fired.
`logged_encode_error` is the `JSON encode error` line; `logged_full_warning`
is the `WS send queue is full` line of the `except queue.Full` handler. -/
structure SendResult where
  client : WSClient
  logged_encode_error : Bool
  logged_full_warning : Bool
deriving Repr, DecidableEq

/-- `WSClient.send_json(data)`.  The outcome of `json.dumps(data)` is passed
in as `ser` (`none` = the serializer raised).  On encode failure: log and
return, touching nothing.  Otherwise `_start_worker()`, then enqueue only if
the queue is not full; since the fullness check precedes `put_nowait`, the
sequential (single-producer) semantics never reaches the `queue.Full`
handler, so a full queue drops the new message without the warning. -/
def WSClient.send_json (c : WSClient) (ser : Option String) : SendResult :=
  match ser with
  | none => { client := c, logged_encode_error := true, logged_full_warning := false }
  | some msg =>
    let c1 := c.startWorker
    if c1.queue.length < queueMaxsize then
      { client := { c1 with queue := c1.queue ++ [some msg] }
        logged_encode_error := false
        logged_full_warning := false }
    else
      { client := c1, logged_encode_error := false, logged_full_warning := false }

/-- `WSClient.close`: set the stop event, enqueue a `None` sentinel (the
`queue.Full` exception, if any, is swallowed), `_safe_close()`, clear the
connected flag.  Note it does not wait for the worker thread. -/
def WSClient.close (c : WSClient) : WSClient :=
  let c1 := { c with stop_event := true }
  let c2 := if c1.queue.length < queueMaxsize
            then { c1 with queue := c1.queue ++ [none] } else c1
  let c3 := c2.safeClose
  { c3 with connected := false }

/-- `WSClient.connect`: just `_start_worker()`. -/
def WSClient.connect (c : WSClient) : WSClient :=
  c.startWorker

/-- `WSClient._start_receiver`. -/
def WSClient.startReceiver (c : WSClient) : WSClient :=
  if c.receiver_alive then c else { c with receiver_alive := true }

/-- `WSClient._try_connect(url)`.  The outcome of `create_connection` is the
oracle `ok`; `now` is the wall clock read for `last_ping_time`.  On success
the old handle (if any) is closed and replaced, the flags and the active url
are set, and the receiver is started; on failure only a warning is logged. -/
def WSClient.tryConnect (c : WSClient) (url : String) (now : ℚ) (ok : Bool) :
    WSClient × Bool :=
  if ok then
    (({ c with ws := some ()
               connected := true
               active_url := url
               last_ping_time := now }).startReceiver, true)
  else
    (c, false)

/-- `WSClient._connect_sequence`: primary first, backup on failure. -/
def WSClient.connectSequence (c : WSClient) (now : ℚ)
    (primary_ok backup_ok : Bool) : WSClient × Bool :=
  let r1 := c.tryConnect c.primary_url now primary_ok
  if r1.2 then (r1.1, true)
  else
    let r2 := r1.1.tryConnect r1.1.backup_url now backup_ok
    if r2.2 then (r2.1, true) else (r2.1, false)

/-- Sleeps performed by `_worker_loop` across connect cycles, given the
current `reconnect_delay` and the success of each `_connect_sequence` call
while disconnected: a failed cycle sleeps the current delay then doubles it
(capped at `_max_reconnect_delay`); a successful cycle sleeps nothing and
resets the delay to `_base_reconnect_delay`. -/
def workerSleeps : ℚ → List Bool → List ℚ
  | _, [] => []
  | d, false :: rest =>
      d :: workerSleeps (min maxReconnectDelay (d * 2)) rest
  | _, true :: rest => workerSleeps baseReconnectDelay rest

/-- Inbound frame as seen by `_receive_loop` after `self.ws.recv()`:
either text that `json.loads` rejects (which includes the empty frame,
since the empty string is not valid JSON), a JSON value that is not an
object (so `data.get` raises `AttributeError`), or a JSON object with the
values found at keys `type` and `action` (`none` = key absent or value not
a string we compare against). -/
inductive Inbound where
  | malformed (raw : String)
  | nonObject
  | object (typ : Option String) (action : Option String)
deriving Repr, DecidableEq

/-- Result of one `_receive_loop` body on an inbound frame: the updated
client and whether the `WS recv error` warning fired. -/
structure RecvResult where
  client : WSClient
  logged_warning : Bool
deriving Repr, DecidableEq

/-- One iteration of `_receive_loop` applied to a received frame.  An empty
(falsy) text frame is skipped by the `if not msg: continue` guard before
`json.loads` is called, so it is ignored silently; a JSON object of type
`camera_control` with action `stop` / `start` toggles `camera_enabled`;
any other object is ignored silently; nonempty text that fails to parse
(or a non-object JSON value) hits the `except Exception` handler, which
logs the `WS recv error` warning and continues. -/
def WSClient.handleInbound (c : WSClient) (msg : Inbound) : RecvResult :=
  match msg with
  | .malformed raw =>
    if raw = "" then { client := c, logged_warning := false }
    else { client := c, logged_warning := true }
  | .nonObject => { client := c, logged_warning := true }
  | .object typ action =>
    if typ = some "camera_control" then
      if action = some "stop" then
        { client := { c with camera_enabled := false }, logged_warning := false }
      else if action = some "start" then
        { client := { c with camera_enabled := true }, logged_warning := false }
      else
        { client := c, logged_warning := false }
    else
      { client := c, logged_warning := false }

/-! ## Theorems about WSClient -/

lemma WSClient.startWorker_preserves (c : WSClient) :
    (c.startWorker).ws = c.ws ∧ (c.startWorker).connected = c.connected
      ∧ (c.startWorker).queue = c.queue := by
  unfold WSClient.startWorker
  split <;> simp

/-- Concrete client whose outbound queue is full (10 pending messages). -/
def fullClientC3 : WSClient :=
  { primary_url := "ws://primary"
    backup_url := "ws://backup"
    active_url := "ws://primary"
    camera_enabled := true
    ws := some ()
    connected := true
    queue := [some "m0", some "m1", some "m2", some "m3", some "m4",
              some "m5", some "m6", some "m7", some "m8", some "m9"]
    worker_alive := true
    receiver_alive := true
    stop_event := false
    last_ping_time := 0 }

/-- Claim C3 counterexample: submitting to a full queue drops the newest
message, but no warning is recorded — the fullness check precedes
`put_nowait`, so the `queue.Full` warning handler is never reached. -/
theorem ws_queue_full_no_warning_cex :
    (fullClientC3.send_json (some "newest")).client.queue = fullClientC3.queue
    ∧ (fullClientC3.send_json (some "newest")).logged_full_warning = false := by
  decide

/-- Claim C3 (amended): for every queue state within the bound, submitting
never pushes the queue length past its bound of 10; no submission ever
records the full-queue warning; and on a full queue the newest message is
dropped (the queued messages are untouched). -/
theorem ws_queue_bound_drop_newest (c : WSClient) (ser : Option String)
    (msg : String) (hb : c.queue.length ≤ queueMaxsize) :
    (c.send_json ser).client.queue.length ≤ queueMaxsize
    ∧ (c.send_json ser).logged_full_warning = false
    ∧ (c.queue.length = queueMaxsize →
        (c.send_json (some msg)).client.queue = c.queue) := by
  obtain ⟨-, -, hq⟩ := c.startWorker_preserves
  have hlen : c.startWorker.queue.length = c.queue.length := by rw [hq]
  refine ⟨?_, ?_, ?_⟩
  · match ser with
    | none => exact hb
    | some m =>
      by_cases hlt : c.startWorker.queue.length < queueMaxsize <;>
        simp [WSClient.send_json, hlt] <;> omega
  · match ser with
    | none => rfl
    | some m =>
      by_cases hlt : c.startWorker.queue.length < queueMaxsize <;>
        simp [WSClient.send_json, hlt]
  · intro hfull
    simp [WSClient.send_json, hq, hfull]

/-- Claim C3 witness: the amended theorem at the concrete full client, with
both the bound hypothesis and the fullness condition discharged there. -/
theorem ws_queue_bound_drop_newest_witness :
    fullClientC3.queue.length = queueMaxsize
    ∧ (fullClientC3.send_json (some "x")).client.queue.length ≤ queueMaxsize
    ∧ (fullClientC3.send_json (some "x")).logged_full_warning = false
    ∧ (fullClientC3.send_json (some "x")).client.queue = fullClientC3.queue :=
  ⟨by decide,
   (ws_queue_bound_drop_newest fullClientC3 (some "x") "x" (by decide)).1,
   (ws_queue_bound_drop_newest fullClientC3 (some "x") "x" (by decide)).2.1,
   (ws_queue_bound_drop_newest fullClientC3 (some "x") "x" (by decide)).2.2 (by decide)⟩

/-- Claim C4: `send_json` is a total function of the client state; when
serialization fails the client (queue included) is left untouched and the
encode error is logged; and for every input the socket handle and the
connected flag are untouched — no network action happens on the caller's
path. -/
theorem ws_send_absorbs_failures (c : WSClient) :
    ((c.send_json none).client = c
      ∧ (c.send_json none).logged_encode_error = true)
    ∧ ∀ ser : Option String,
        (c.send_json ser).client.ws = c.ws
        ∧ (c.send_json ser).client.connected = c.connected := by
  obtain ⟨hw, hc, -⟩ := c.startWorker_preserves
  refine ⟨⟨rfl, rfl⟩, ?_⟩
  intro ser
  match ser with
  | none => exact ⟨rfl, rfl⟩
  | some m =>
    by_cases hlt : c.startWorker.queue.length < queueMaxsize <;>
      simp [WSClient.send_json, hlt, hw, hc]

/-- Concrete client already shut down once: `close` applied to a fresh
client. -/
def closedClientC5 : WSClient :=
  (WSClient.init "ws://primary" "ws://backup").close

/-- Claim C5 counterexample: a second `close` does not leave the state
unchanged — each call enqueues another `None` sentinel while the queue has
room, so the queue grows from one sentinel to two. -/
theorem ws_close_second_call_cex :
    closedClientC5.close ≠ closedClientC5
    ∧ closedClientC5.queue = [none]
    ∧ closedClientC5.close.queue = [none, none] := by
  decide

lemma WSClient.close_flags (c : WSClient) :
    (c.close).stop_event = true ∧ (c.close).ws = none ∧ (c.close).connected = false
    ∧ (c.close).worker_alive = c.worker_alive
    ∧ (c.close).receiver_alive = c.receiver_alive
    ∧ (c.close).camera_enabled = c.camera_enabled
    ∧ (c.close).active_url = c.active_url
    ∧ (c.close).primary_url = c.primary_url
    ∧ (c.close).backup_url = c.backup_url
    ∧ (c.close).last_ping_time = c.last_ping_time := by
  unfold WSClient.close WSClient.safeClose
  by_cases h : c.queue.length < queueMaxsize <;>
    rcases hw : c.ws with - | u <;> simp [h, hw]

lemma WSClient.close_queue (c : WSClient) :
    (c.close).queue = c.queue ++ [none] ∨ (c.close).queue = c.queue := by
  unfold WSClient.close WSClient.safeClose
  by_cases h : c.queue.length < queueMaxsize <;>
    rcases hw : c.ws with - | u <;> simp [h, hw]

/-- Claim C5 (amended): `close` never raises (it is a total function), sets
the stop event, drops any live socket handle and clears the connected flag,
even on a never-connected client; a second call is idempotent on every
field except the queue, to which it may append one more `None` sentinel
(only while the queue has room). -/
theorem ws_close_idempotent_except_sentinel (c : WSClient) :
    ((c.close).stop_event = true ∧ (c.close).ws = none
      ∧ (c.close).connected = false)
    ∧ ((c.close.close).stop_event = (c.close).stop_event
      ∧ (c.close.close).ws = (c.close).ws
      ∧ (c.close.close).connected = (c.close).connected
      ∧ (c.close.close).worker_alive = (c.close).worker_alive
      ∧ (c.close.close).receiver_alive = (c.close).receiver_alive
      ∧ (c.close.close).camera_enabled = (c.close).camera_enabled
      ∧ (c.close.close).active_url = (c.close).active_url
      ∧ (c.close.close).primary_url = (c.close).primary_url
      ∧ (c.close.close).backup_url = (c.close).backup_url
      ∧ (c.close.close).last_ping_time = (c.close).last_ping_time)
    ∧ ((c.close.close).queue = (c.close).queue
        ∨ (c.close.close).queue = (c.close).queue ++ [none]) := by
  obtain ⟨h1, h2, h3, h4, h5, h6, h7, h8, h9, h10⟩ := WSClient.close_flags c
  obtain ⟨g1, g2, g3, g4, g5, g6, g7, g8, g9, g10⟩ := WSClient.close_flags c.close
  refine ⟨⟨h1, h2, h3⟩, ⟨?_, ?_, ?_, g4, g5, g6, g7, g8, g9, g10⟩, ?_⟩
  · rw [g1, h1]
  · rw [g2, h2]
  · rw [g3, h3]
  · exact (WSClient.close_queue c.close).symm

/-- Claim C6: in a connect cycle where the primary attempt fails and the
backup attempt succeeds, `_connect_sequence` reports success and leaves the
client connected with `active_url` set to the backup endpoint. -/
theorem ws_failover_to_backup (c : WSClient) (now : ℚ) :
    (c.connectSequence now false true).2 = true
    ∧ (c.connectSequence now false true).1.connected = true
    ∧ (c.connectSequence now false true).1.active_url = c.backup_url := by
  by_cases hr : c.receiver_alive <;>
    simp [WSClient.connectSequence, WSClient.tryConnect, WSClient.startReceiver, hr]

lemma one_le_two_pow_q (i : ℕ) : (1 : ℚ) ≤ 2 ^ i := by
  induction i with
  | zero => norm_num
  | succ n ih => rw [pow_succ]; nlinarith

lemma backoff_cap_step (d : ℚ) (i : ℕ) :
    min maxReconnectDelay (min maxReconnectDelay (d * 2) * 2 ^ i)
      = min maxReconnectDelay (d * 2 ^ (i + 1)) := by
  have hp : (1 : ℚ) ≤ 2 ^ i := one_le_two_pow_q i
  have hnn : (0 : ℚ) ≤ 2 ^ i := by positivity
  rcases le_or_lt (d * 2) maxReconnectDelay with h | h
  · rw [min_eq_right h]
    congr 1
    ring
  · have hA : maxReconnectDelay ≤ maxReconnectDelay * 2 ^ i :=
      le_mul_of_one_le_right (by norm_num [maxReconnectDelay]) hp
    have hB : maxReconnectDelay ≤ d * 2 ^ (i + 1) := by
      have h2 : maxReconnectDelay * 2 ^ i ≤ d * 2 * 2 ^ i :=
        mul_le_mul_of_nonneg_right h.le hnn
      calc maxReconnectDelay ≤ maxReconnectDelay * 2 ^ i := hA
        _ ≤ d * 2 * 2 ^ i := h2
        _ = d * 2 ^ (i + 1) := by ring
    rw [min_eq_left h.le, min_eq_left hA, min_eq_left hB]

lemma workerSleeps_replicate (k : ℕ) (d : ℚ) (hd : d ≤ maxReconnectDelay) :
    workerSleeps d (List.replicate k false)
      = (List.range k).map (fun i => min maxReconnectDelay (d * 2 ^ i)) := by
  induction k generalizing d with
  | zero => simp [workerSleeps]
  | succ n ih =>
    rw [List.replicate_succ, workerSleeps, List.range_succ_eq_map,
        ih _ (min_le_left _ _)]
    simp only [List.map_cons, List.map_map]
    congr 1
    · rw [pow_zero, mul_one, min_eq_right hd]
    · have hfun : (fun i => min maxReconnectDelay (min maxReconnectDelay (d * 2) * 2 ^ i))
          = ((fun i => min maxReconnectDelay (d * 2 ^ i)) ∘ Nat.succ) := by
        funext i
        simp only [Function.comp]
        exact backoff_cap_step d i
      rw [hfun]

/-- Claim C7: the sleeps between consecutive failed connect cycles follow
exponential backoff — after a success (or from the start) the i-th
consecutive failure sleeps `min 10 (2^i)` seconds, i.e. 1, 2, 4, 8, 10,
10, …; and a successful cycle resets the delay to the 1-second seed. -/
theorem ws_backoff_exponential :
    (∀ k : ℕ, workerSleeps baseReconnectDelay (List.replicate k false)
        = (List.range k).map (fun i => min maxReconnectDelay ((2 : ℚ) ^ i)))
    ∧ (∀ (d : ℚ) (rest : List Bool),
        workerSleeps d (true :: rest) = workerSleeps baseReconnectDelay rest)
    ∧ workerSleeps baseReconnectDelay
        [false, false, false, false, false, false] = [1, 2, 4, 8, 10, 10] := by
  refine ⟨?_, ?_, ?_⟩
  · intro k
    have h := workerSleeps_replicate k baseReconnectDelay
      (by norm_num [baseReconnectDelay, maxReconnectDelay])
    simpa [baseReconnectDelay] using h
  · intro d rest
    rfl
  · norm_num [workerSleeps, baseReconnectDelay, maxReconnectDelay]

/-- Concrete client used to exercise the receive loop. -/
def recvClientC8 : WSClient := WSClient.init "ws://primary" "ws://backup"

/-- Claim C8 counterexample: non-JSON inbound text is not ignored silently —
`json.loads` raises, the `except Exception` handler fires and the
`WS recv error` warning is logged (the state is indeed unchanged). -/
theorem ws_recv_malformed_warns_cex :
    (recvClientC8.handleInbound (.malformed "not json")).logged_warning = true
    ∧ (recvClientC8.handleInbound (.malformed "not json")).client = recvClientC8 := by
  decide

/-- Claim C8 (amended): a JSON object with type `camera_control` and action
`stop` / `start` sets `camera_enabled` to false / true and changes nothing
else; a JSON object with any other type or action leaves the client
unchanged and is ignored silently; an empty text frame is skipped by the
`if not msg` guard, silently and with no state change; nonempty non-JSON
text (and non-object JSON) leaves the client unchanged but logs the
`WS recv error` warning rather than being silent. -/
theorem ws_recv_camera_control (c : WSClient) (typ action : Option String)
    (raw : String) (hraw : raw ≠ "")
    (hother : typ ≠ some "camera_control"
      ∨ (action ≠ some "stop" ∧ action ≠ some "start")) :
    ((c.handleInbound (.object (some "camera_control") (some "stop"))).client
        = { c with camera_enabled := false }
      ∧ (c.handleInbound (.object (some "camera_control") (some "stop"))).logged_warning
          = false)
    ∧ ((c.handleInbound (.object (some "camera_control") (some "start"))).client
        = { c with camera_enabled := true }
      ∧ (c.handleInbound (.object (some "camera_control") (some "start"))).logged_warning
          = false)
    ∧ ((c.handleInbound (.object typ action)).client = c
      ∧ (c.handleInbound (.object typ action)).logged_warning = false)
    ∧ ((c.handleInbound (.malformed "")).client = c
      ∧ (c.handleInbound (.malformed "")).logged_warning = false)
    ∧ ((c.handleInbound (.malformed raw)).client = c
      ∧ (c.handleInbound (.malformed raw)).logged_warning = true)
    ∧ ((c.handleInbound .nonObject).client = c
      ∧ (c.handleInbound .nonObject).logged_warning = true) := by
  refine ⟨?_, ?_, ?_, ?_, ?_, ⟨rfl, rfl⟩⟩
  · constructor <;> simp [WSClient.handleInbound]
  · constructor <;> simp [WSClient.handleInbound]
  · rcases hother with h | ⟨h1, h2⟩
    · constructor <;> simp [WSClient.handleInbound, h]
    · by_cases ht : typ = some "camera_control" <;>
        constructor <;> simp [WSClient.handleInbound, ht, h1, h2]
  · constructor <;> simp [WSClient.handleInbound]
  · constructor <;> simp [WSClient.handleInbound, hraw]

/-- Claim C8 witness: the amended theorem at a concrete client, with a
well-formed object of a different type and a nonempty malformed frame. -/
theorem ws_recv_camera_control_witness :
    ((recvClientC8.handleInbound (.object (some "camera_control") (some "stop"))).client
        = { recvClientC8 with camera_enabled := false }
      ∧ (recvClientC8.handleInbound
          (.object (some "camera_control") (some "stop"))).logged_warning = false)
    ∧ ((recvClientC8.handleInbound (.object (some "camera_control") (some "start"))).client
        = { recvClientC8 with camera_enabled := true }
      ∧ (recvClientC8.handleInbound
          (.object (some "camera_control") (some "start"))).logged_warning = false)
    ∧ ((recvClientC8.handleInbound (.object (some "telemetry") (some "stop"))).client
        = recvClientC8
      ∧ (recvClientC8.handleInbound
          (.object (some "telemetry") (some "stop"))).logged_warning = false)
    ∧ ((recvClientC8.handleInbound (.malformed "")).client = recvClientC8
      ∧ (recvClientC8.handleInbound (.malformed "")).logged_warning = false)
    ∧ ((recvClientC8.handleInbound (.malformed "oops")).client = recvClientC8
      ∧ (recvClientC8.handleInbound (.malformed "oops")).logged_warning = true)
    ∧ ((recvClientC8.handleInbound .nonObject).client = recvClientC8
      ∧ (recvClientC8.handleInbound .nonObject).logged_warning = true) :=
  ws_recv_camera_control recvClientC8 (some "telemetry") (some "stop") "oops"
    (by decide) (Or.inl (by decide))

/-- Claim C10: shutdown is not permanent — once the worker has observed the
stop event and exited, a `send_json` (or `connect`) call clears the stop
flag via `_start_worker`, restarts the worker, and (given room) the message
is still enqueued for delivery. -/
theorem ws_close_then_send_restarts (c : WSClient) (msg : String)
    (hroom : (c.close.workerObserveStop).queue.length < queueMaxsize) :
    ((c.close.workerObserveStop).send_json (some msg)).client.stop_event = false
    ∧ ((c.close.workerObserveStop).send_json (some msg)).client.worker_alive = true
    ∧ ((c.close.workerObserveStop).send_json (some msg)).client.queue
        = (c.close.workerObserveStop).queue ++ [some msg]
    ∧ (c.close.workerObserveStop).connect.stop_event = false
    ∧ (c.close.workerObserveStop).connect.worker_alive = true := by
  have h1 : (c.close).stop_event = true := (WSClient.close_flags c).1
  have hs : c.close.workerObserveStop = { c.close with worker_alive := false } := by
    simp [WSClient.workerObserveStop, h1]
  rw [hs] at hroom ⊢
  simp only [WSClient.send_json, WSClient.connect, WSClient.startWorker]
  simp [hroom]

/-- Concrete fresh client for the C10 witness. -/
def freshClientC10 : WSClient := WSClient.init "ws://primary" "ws://backup"

/-- Claim C10 witness: the theorem at a concrete fresh client. -/
theorem ws_close_then_send_restarts_witness :
    (freshClientC10.close.workerObserveStop).queue.length < queueMaxsize
    ∧ (((freshClientC10.close.workerObserveStop).send_json (some "tick")).client.stop_event
          = false
      ∧ ((freshClientC10.close.workerObserveStop).send_json (some "tick")).client.worker_alive
          = true
      ∧ ((freshClientC10.close.workerObserveStop).send_json (some "tick")).client.queue
          = (freshClientC10.close.workerObserveStop).queue ++ [some "tick"]
      ∧ (freshClientC10.close.workerObserveStop).connect.stop_event = false
      ∧ (freshClientC10.close.workerObserveStop).connect.worker_alive = true) :=
  ⟨by decide, ws_close_then_send_restarts freshClientC10 "tick" (by decide)⟩

end SmartChair
